import Mathlib

/-!
Shallow embedding of the AIgentOS kernel API core (token estimation, prompt
composition, context compaction, baseline orchestration) together with proofs
of the specified properties.  Each definition is translated from the Python
source under `src/kernel/api/`; the file/line references are given in the doc
comments.
-/

set_option maxHeartbeats 1000000
set_option maxRecDepth 20000

namespace AIgentOS

/-- A chat message as sent to the model client (`ChatMessageIn` in
`src/kernel/api/llm.py`). -/
structure ChatMessageIn where
  role : String
  content : String
deriving DecidableEq, Repr

/-- Total character count of a message list, `sum(len(m.content or "") ...)`
inside `_estimate_tokens_for_messages` (`main.py` line 152). -/
def charCount (messages : List ChatMessageIn) : Nat :=
  (messages.map (fun m => m.content.length)).sum

/-- `_estimate_tokens_for_messages` (`main.py` lines 151-153):
`max(1, math.ceil(char_count / 4))`.  On natural numbers `ceil(n / 4)` is
`(n + 3) / 4` in truncating division. -/
def estimateTokensForMessages (messages : List ChatMessageIn) : Nat :=
  max 1 ((charCount messages + 3) / 4)

/-- `_estimate_tokens_for_text` (`main.py` lines 156-157). -/
def estimateTokensForText (text : String) : Nat :=
  max 1 ((text.length + 3) / 4)

/-- Python `str.strip()` with no arguments: remove whitespace from both ends.
It is modelled directly on the character list so that it evaluates on
concrete strings. -/
def pyStrip (s : String) : String :=
  ⟨((s.data.dropWhile Char.isWhitespace).reverse.dropWhile
      Char.isWhitespace).reverse⟩

/-- The tenant context-settings row (`StoredContextSettings` in `storage.py`).
`compact_trigger_pct` is a Python float; it is modelled as a rational. -/
structure StoredContextSettings where
  max_context_tokens : Nat
  max_response_tokens : Nat
  compact_trigger_pct : ℚ
  compact_instructions : String
deriving DecidableEq, Repr

/-- The compaction trigger threshold,
`int(max_context_tokens * compact_trigger_pct)` (`main.py` line 1048); for the
non-negative values involved Python `int()` truncation is the floor. -/
def compact_threshold (s : StoredContextSettings) : ℤ :=
  ⌊(s.max_context_tokens : ℚ) * s.compact_trigger_pct⌋

/-- The history-eviction loop of the chat endpoint (`main.py` lines 1061-1064):
`while len(llm_messages) > 2 and estimate(llm_messages) > max_context_tokens:
llm_messages.pop(2); dropped += 1`. -/
def drop_oldest_loop (max_context_tokens : Nat) (messages : List ChatMessageIn)
    (dropped : Nat) : List ChatMessageIn × Nat :=
  if h : 2 < messages.length ∧
      max_context_tokens < estimateTokensForMessages messages then
    drop_oldest_loop max_context_tokens (messages.eraseIdx 2) (dropped + 1)
  else
    (messages, dropped)
termination_by messages.length
decreasing_by
  rw [List.length_eraseIdx_of_lt (by omega)]
  omega

/-- The observable outcome of one chat turn's compaction phase
(`main.py` lines 1045-1066 and the `context_compaction` metrics block). -/
structure CompactionOutcome where
  messages : List ChatMessageIn
  compaction_applied : Bool
  dropped_history_messages : Nat
  est_prompt_tokens_before : Nat
  est_prompt_tokens_after : Nat
  trigger_tokens : ℤ
deriving DecidableEq, Repr

/-- The per-turn context-compaction phase of the chat endpoint
(`main.py` lines 1045-1066): assemble `[system: effective_prompt] + history`,
insert the trimmed compaction instructions at position 1 when the trigger
condition holds, then run the oldest-first eviction loop. -/
def compact_context (s : StoredContextSettings) (effective_prompt : String)
    (history_messages : List ChatMessageIn) : CompactionOutcome :=
  let llm_messages : List ChatMessageIn :=
    ⟨"system", effective_prompt⟩ :: history_messages
  let est_before := estimateTokensForMessages llm_messages
  let threshold := compact_threshold s
  let inserted : List ChatMessageIn × Bool :=
    if pyStrip s.compact_instructions ≠ "" ∧ threshold ≤ (est_before : ℤ) then
      (List.insertIdx 1 ⟨"system", pyStrip s.compact_instructions⟩ llm_messages,
        true)
    else
      (llm_messages, false)
  let final := drop_oldest_loop s.max_context_tokens inserted.1 0
  { messages := final.1
    compaction_applied := inserted.2
    dropped_history_messages := final.2
    est_prompt_tokens_before := est_before
    est_prompt_tokens_after := estimateTokensForMessages final.1
    trigger_tokens := threshold }

/-! ### Prompt composition (`prompts.py`) -/

/-- `PromptComponent` (`prompts.py` lines 16-24). -/
structure PromptComponent where
  id : String
  name : String
  file_path : String
  content : String
  order : Int
  enabled : Bool
  is_system : Bool
deriving DecidableEq, Repr

/-- The fixed fallback sentence of `compose_system_prompt`
(`prompts.py` line 92). -/
def fallbackSystemPrompt : String := "You are a helpful local AI assistant."

/-- The `sorted(components, key=lambda x: x.order)` step of
`compose_system_prompt`; Python `sorted` is a stable merge sort on the key. -/
def sorted_components (components : List PromptComponent) :
    List PromptComponent :=
  components.mergeSort (fun a b => decide (a.order ≤ b.order))

/-- The filter of `compose_system_prompt` (`prompts.py` line 90): keep the
enabled components whose trimmed content is non-empty. -/
def surviving_components (components : List PromptComponent) :
    List PromptComponent :=
  (sorted_components components).filter
    (fun c => c.enabled && pyStrip c.content != "")

/-- `compose_system_prompt` (`prompts.py` lines 89-93). -/
def compose_system_prompt (components : List PromptComponent) : String :=
  let enabledParts :=
    (surviving_components components).map (fun c => pyStrip c.content)
  if enabledParts = [] then fallbackSystemPrompt
  else String.intercalate "\n\n" enabledParts

/-- A sparse per-profile component override, one value of the map returned by
`ChatStore.get_prompt_overrides` (`storage.py` lines 606-622). -/
structure PromptOverride where
  content : Option String
  enabled : Option Bool
deriving DecidableEq, Repr

/-- The merge step inside `_effective_prompt_components`
(`main.py` lines 107-121): an override replaces `content` / `enabled` only
where the corresponding override field is non-null. -/
def applyOverride (item : PromptComponent) :
    Option PromptOverride → PromptComponent
  | none => item
  | some ov =>
      { item with
        content := ov.content.getD item.content
        enabled := ov.enabled.getD item.enabled }

/-- `_effective_prompt_components` (`main.py` lines 102-122), with the active
profile's sparse override map supplied as a lookup keyed by component id.
Overrides never add or remove components, only patch existing ones. -/
def effective_prompt_components (defaults : List PromptComponent)
    (overrides : String → Option PromptOverride) : List PromptComponent :=
  defaults.map (fun item => applyOverride item (overrides item.id))

/-- The override lookup of a profile after `ChatStore.reset_prompt_profile`
(`storage.py` lines 663-668): every override row of the profile has been
deleted, so every lookup misses. -/
def resetOverrides : String → Option PromptOverride := fun _ => none

/-! ### Prompt profiles (`storage.py`) -/

/-- A prompt-profile row (`StoredPromptProfile` in `storage.py`). -/
structure StoredPromptProfile where
  id : String
  tenant_id : String
  name : String
  is_default : Bool
  is_active : Bool
  updated_at : String
deriving DecidableEq, Repr

/-- The effect on one row of
`UPDATE prompt_profiles SET is_active = 0 WHERE tenant_id = ?`
(`storage.py` line 598). -/
def deactivate_tenant_row (tenant_id : String) (p : StoredPromptProfile) :
    StoredPromptProfile :=
  if p.tenant_id == tenant_id then { p with is_active := false } else p

/-- The effect on one row of
`UPDATE prompt_profiles SET is_active = 1, updated_at = ? WHERE id = ?`
(`storage.py` lines 599-602). -/
def activate_row (profile_id now : String) (p : StoredPromptProfile) :
    StoredPromptProfile :=
  if p.id == profile_id then { p with is_active := true, updated_at := now }
  else p

/-- `ChatStore.activate_prompt_profile` (`storage.py` lines 589-604): when no
row matches both the id and the tenant, return `False` and leave the table
unchanged; otherwise run the tenant-wide deactivation update followed by the
id-targeted activation update. -/
def activate_prompt_profile (table : List StoredPromptProfile)
    (tenant_id profile_id now : String) : Bool × List StoredPromptProfile :=
  if table.any (fun p => p.id == profile_id && p.tenant_id == tenant_id) then
    (true,
      (table.map (deactivate_tenant_row tenant_id)).map
        (activate_row profile_id now))
  else
    (false, table)

/-! ### Context-settings update (`models.py`, `main.py`, `storage.py`) -/

/-- `ContextSettingsUpdateRequest` (`models.py` lines 147-151), before
field validation. -/
structure ContextSettingsUpdateRequest where
  max_context_tokens : Option Int
  max_response_tokens : Option Int
  compact_trigger_pct : Option ℚ
  compact_instructions : Option String
deriving DecidableEq, Repr

/-- The pydantic field validation of `ContextSettingsUpdateRequest`
(`models.py` lines 147-151): each present field must satisfy its `ge`/`le`
bounds, in particular `compact_trigger_pct ∈ [0.1, 1.0]`. -/
def validateContextSettingsUpdate (p : ContextSettingsUpdateRequest) : Bool :=
  (match p.max_context_tokens with
   | none => true
   | some v => decide (256 ≤ v ∧ v ≤ 262144)) &&
  (match p.max_response_tokens with
   | none => true
   | some v => decide (16 ≤ v ∧ v ≤ 262144)) &&
  (match p.compact_trigger_pct with
   | none => true
   | some v => decide ((1 : ℚ)/10 ≤ v ∧ v ≤ 1))

/-- The `PATCH /api/prompts/context-settings` handler (`main.py` lines
655-663) combined with `ChatStore.update_context_settings` (`storage.py`
lines 820-855): pydantic rejects an out-of-range payload before the handler
body runs (`none`, no state mutation); otherwise each present field
overwrites the stored one, the absent fields are kept, and
`max_context_tokens` is re-pinned to the configured window size. -/
def update_context_settings_endpoint (current : StoredContextSettings)
    (window : Nat) (p : ContextSettingsUpdateRequest) :
    Option StoredContextSettings :=
  if validateContextSettingsUpdate p then
    some
      { max_context_tokens := window
        max_response_tokens :=
          (p.max_response_tokens.map Int.toNat).getD
            current.max_response_tokens
        compact_trigger_pct :=
          p.compact_trigger_pct.getD current.compact_trigger_pct
        compact_instructions :=
          p.compact_instructions.getD current.compact_instructions }
  else
    none

/-! ### Baseline orchestrator (`main.py`) -/

/-- `ChatCompletionResult` (`llm.py` lines 16-22). -/
structure ChatCompletionResult where
  content : String
  latency_ms : Nat
  prompt_tokens : Option Nat
  completion_tokens : Option Nat
  total_tokens : Option Nat
deriving DecidableEq, Repr

/-- The model backend together with the wall clock: for a request (message
list and optional `max_tokens`) it yields the completion and the wall-clock
latency the caller measures around the call.  The baseline code is embedded
relative to an arbitrary such oracle. -/
def LlmOracle : Type :=
  List ChatMessageIn → Option Nat → ChatCompletionResult × Nat

/-- Core loop of `_build_user_payload` / `_build_system_payload`
(`main.py` lines 217-236): concatenate copies of the fragment until the
estimator reports at least the target.  The fragments used by the code are
never empty, which is what makes the Python loop terminate; the positivity
hypothesis records exactly that. -/
def build_payload_loop (fragment : String) (hf : 0 < fragment.length)
    (target : Nat) (text : String) : String :=
  if h : estimateTokensForText text < target then
    build_payload_loop fragment hf target (text ++ fragment)
  else text
termination_by 4 * target - text.length
decreasing_by
  have hlt : (text.length + 3) / 4 < target :=
    lt_of_le_of_lt (le_max_right 1 _) h
  rw [String.length_append]
  omega

/-- The fragment of `_build_user_payload` (`main.py` lines 217-225). -/
def user_fragment (seed : String) : String :=
  seed ++
    ". Keep this coherent, factual, and concise. Include clear constraints, concrete details, and specific wording. "

/-- The fragment of `_build_system_payload` (`main.py` lines 228-236). -/
def system_fragment (seed : String) : String :=
  seed ++
    ". Preserve instruction fidelity, avoid hallucination, and remain concise. Use explicit constraints and deterministic formatting cues. "

theorem user_fragment_length_pos (seed : String) :
    0 < (user_fragment seed).length := by
  rw [user_fragment, String.length_append]
  have : (0 : Nat) <
      ". Keep this coherent, factual, and concise. Include clear constraints, concrete details, and specific wording. ".length := by
    decide
  omega

theorem system_fragment_length_pos (seed : String) :
    0 < (system_fragment seed).length := by
  rw [system_fragment, String.length_append]
  have : (0 : Nat) <
      ". Preserve instruction fidelity, avoid hallucination, and remain concise. Use explicit constraints and deterministic formatting cues. ".length := by
    decide
  omega

/-- `_build_user_payload` (`main.py` lines 217-225). -/
def build_user_payload (target_tokens : Nat) (seed : String) : String :=
  build_payload_loop (user_fragment seed) (user_fragment_length_pos seed)
    target_tokens ""

/-- `_build_system_payload` (`main.py` lines 228-236). -/
def build_system_payload (target_tokens : Nat) (seed : String) : String :=
  build_payload_loop (system_fragment seed) (system_fragment_length_pos seed)
    target_tokens ""

/-- `BaselineCaseResult` (`models.py` lines 193-207); the float average is
modelled as a rational. -/
structure BaselineCaseResult where
  id : String
  label : String
  calls : Nat
  input_tokens_est : Nat
  prompt_tokens : Nat
  completion_tokens : Nat
  total_tokens : Nat
  total_latency_ms : Nat
  avg_latency_ms : ℚ
  min_latency_ms : Option Nat
  max_latency_ms : Option Nat
  per_turn_latency_ms : Option (List Nat)
  per_turn_prompt_tokens : Option (List Nat)
  per_turn_completion_tokens : Option (List Nat)
deriving DecidableEq, Repr

/-- `BaselineCategoryResult` (`models.py` lines 210-213). -/
structure BaselineCategoryResult where
  id : String
  label : String
  cases : List BaselineCaseResult
deriving DecidableEq, Repr

/-- `BaselineRunResponse` (`models.py` lines 216-222); the wall-clock
timestamp and duration fields are observables of the clock, outside the
embedding. -/
structure BaselineRunResponse where
  model : String
  total_calls : Nat
  categories : List BaselineCategoryResult
deriving DecidableEq, Repr

/-- `_run_single_turn_case` (`main.py` lines 239-276).  The progress callback
only reports to the job table and does not affect the returned case. -/
def run_single_turn_case (llm : LlmOracle) (effective_prompt case_id label
    task_instruction : String) (input_tokens : Nat)
    (max_response_tokens : Option Nat) : BaselineCaseResult :=
  let user_payload := build_user_payload input_tokens (label ++ " input")
  let messages : List ChatMessageIn :=
    [⟨"system", effective_prompt⟩, ⟨"system", task_instruction⟩,
     ⟨"user", user_payload⟩]
  let call := llm messages max_response_tokens
  let completion := call.1
  let latency_ms := call.2
  let prompt_tokens :=
    completion.prompt_tokens.getD (estimateTokensForMessages messages)
  let completion_tokens :=
    completion.completion_tokens.getD
      (estimateTokensForText completion.content)
  let total_tokens :=
    completion.total_tokens.getD (prompt_tokens + completion_tokens)
  { id := case_id
    label := label
    calls := 1
    input_tokens_est := estimateTokensForText user_payload
    prompt_tokens := prompt_tokens
    completion_tokens := completion_tokens
    total_tokens := total_tokens
    total_latency_ms := latency_ms
    avg_latency_ms := (latency_ms : ℚ)
    min_latency_ms := some latency_ms
    max_latency_ms := some latency_ms
    per_turn_latency_ms := none
    per_turn_prompt_tokens := none
    per_turn_completion_tokens := none }

/-- `_run_system_prompt_pressure_case` (`main.py` lines 279-317). -/
def run_system_prompt_pressure_case (llm : LlmOracle)
    (effective_prompt case_id label : String) (system_tokens user_tokens : Nat)
    (max_response_tokens : Option Nat) : BaselineCaseResult :=
  let system_pressure :=
    build_system_payload system_tokens (label ++ " system context")
  let user_payload := build_user_payload user_tokens (label ++ " user input")
  let messages : List ChatMessageIn :=
    [⟨"system", effective_prompt⟩, ⟨"system", system_pressure⟩,
     ⟨"user", user_payload⟩]
  let call := llm messages max_response_tokens
  let completion := call.1
  let latency_ms := call.2
  let prompt_tokens :=
    completion.prompt_tokens.getD (estimateTokensForMessages messages)
  let completion_tokens :=
    completion.completion_tokens.getD
      (estimateTokensForText completion.content)
  let total_tokens :=
    completion.total_tokens.getD (prompt_tokens + completion_tokens)
  { id := case_id
    label := label
    calls := 1
    input_tokens_est := estimateTokensForText user_payload
    prompt_tokens := prompt_tokens
    completion_tokens := completion_tokens
    total_tokens := total_tokens
    total_latency_ms := latency_ms
    avg_latency_ms := (latency_ms : ℚ)
    min_latency_ms := some latency_ms
    max_latency_ms := some latency_ms
    per_turn_latency_ms := none
    per_turn_prompt_tokens := none
    per_turn_completion_tokens := none }

/-- The per-turn loop state of `_run_multi_turn_case`
(`main.py` lines 329-363). -/
structure MultiTurnState where
  messages : List ChatMessageIn
  prompt_total : Nat
  completion_total : Nat
  token_total : Nat
  latency_total : Nat
  per_turn_latency_ms : List Nat
  per_turn_prompt_tokens : List Nat
  per_turn_completion_tokens : List Nat
  input_total : Nat
deriving Repr

/-- One iteration of the `for idx, target in enumerate(turn_targets)` loop of
`_run_multi_turn_case` (`main.py` lines 342-363): append the user payload,
call the model, record the per-turn numbers, append the assistant reply. -/
def multi_turn_step (llm : LlmOracle) (label : String)
    (max_response_tokens : Option Nat) (st : MultiTurnState)
    (turn : Nat × Nat) : MultiTurnState :=
  let user_payload :=
    build_user_payload turn.2 (label ++ " turn " ++ toString (turn.1 + 1))
  let messages1 := st.messages ++ [⟨"user", user_payload⟩]
  let call := llm messages1 max_response_tokens
  let completion := call.1
  let latency_ms := call.2
  let prompt_tokens :=
    completion.prompt_tokens.getD (estimateTokensForMessages messages1)
  let completion_tokens :=
    completion.completion_tokens.getD
      (estimateTokensForText completion.content)
  let total_tokens :=
    completion.total_tokens.getD (prompt_tokens + completion_tokens)
  { messages := messages1 ++ [⟨"assistant", completion.content⟩]
    prompt_total := st.prompt_total + prompt_tokens
    completion_total := st.completion_total + completion_tokens
    token_total := st.token_total + total_tokens
    latency_total := st.latency_total + latency_ms
    per_turn_latency_ms := st.per_turn_latency_ms ++ [latency_ms]
    per_turn_prompt_tokens := st.per_turn_prompt_tokens ++ [prompt_tokens]
    per_turn_completion_tokens :=
      st.per_turn_completion_tokens ++ [completion_tokens]
    input_total := st.input_total + estimateTokensForText user_payload }

/-- `_run_multi_turn_case` (`main.py` lines 320-381). -/
def run_multi_turn_case (llm : LlmOracle) (effective_prompt case_id label
    task_instruction : String) (turn_targets : List Nat)
    (max_response_tokens : Option Nat) : BaselineCaseResult :=
  let init : MultiTurnState :=
    { messages :=
        [⟨"system", effective_prompt⟩, ⟨"system", task_instruction⟩]
      prompt_total := 0
      completion_total := 0
      token_total := 0
      latency_total := 0
      per_turn_latency_ms := []
      per_turn_prompt_tokens := []
      per_turn_completion_tokens := []
      input_total := 0 }
  let st :=
    turn_targets.enum.foldl (multi_turn_step llm label max_response_tokens)
      init
  let calls := turn_targets.length
  { id := case_id
    label := label
    calls := calls
    input_tokens_est := st.input_total
    prompt_tokens := st.prompt_total
    completion_tokens := st.completion_total
    total_tokens := st.token_total
    total_latency_ms := st.latency_total
    avg_latency_ms :=
      if 0 < calls then (st.latency_total : ℚ) / (calls : ℚ) else 0
    min_latency_ms := st.per_turn_latency_ms.min?
    max_latency_ms := st.per_turn_latency_ms.max?
    per_turn_latency_ms := some st.per_turn_latency_ms
    per_turn_prompt_tokens := some st.per_turn_prompt_tokens
    per_turn_completion_tokens := some st.per_turn_completion_tokens }

/-- `_baseline_total_calls` (`main.py` lines 423-425):
simple QA 3 + summarization 4 + multi-turn 20 + extraction 1 +
system prompt pressure 6. -/
def baseline_total_calls : Nat := 34

/-- The multi-turn targets `[50 + ((i * 17) % 151) for i in range(20)]`
(`main.py` line 505). -/
def multi_turn_targets : List Nat :=
  (List.range 20).map (fun i => 50 + (i * 17) % 151)

/-- `system_prompt_targets` (`main.py` line 534). -/
def system_prompt_targets : List Nat := [200, 500, 1000, 2000, 5000, 10000]

/-- `_execute_baseline` (`main.py` lines 428-568), relative to a model/clock
oracle.  Progress callbacks mutate only the job table and are modelled
separately by `baseline_progress`; `total_calls` is the sum of per-case call
counts as on line 560. -/
def execute_baseline (llm : LlmOracle) (effective_prompt model : String)
    (baseline_max_tokens : Option Nat) : BaselineRunResponse :=
  let simple_qa_cases : List BaselineCaseResult :=
    [run_single_turn_case llm effective_prompt "qa_100"
        "Simple Q/A (100 user tokens)"
        "Answer directly in 6-10 concise sentences." 100 baseline_max_tokens,
      run_single_turn_case llm effective_prompt "qa_250"
        "Simple Q/A (250 user tokens)"
        "Answer directly in 6-10 concise sentences." 250 baseline_max_tokens,
      run_single_turn_case llm effective_prompt "qa_500"
        "Simple Q/A (500 user tokens)"
        "Answer directly in 6-10 concise sentences." 500 baseline_max_tokens]
  let summarization_cases : List BaselineCaseResult :=
    [run_single_turn_case llm effective_prompt "sum_200"
        "Summarization (200 user tokens)"
        "Summarize the content in 5 bullet points." 200 baseline_max_tokens,
      run_single_turn_case llm effective_prompt "sum_500"
        "Summarization (500 user tokens)"
        "Summarize the content in 5 bullet points." 500 baseline_max_tokens,
      run_single_turn_case llm effective_prompt "sum_1000"
        "Summarization (1000 user tokens)"
        "Summarize the content in 8 bullet points." 1000 baseline_max_tokens,
      run_single_turn_case llm effective_prompt "sum_2000"
        "Summarization (2000 user tokens)"
        "Summarize the content in 10 bullet points." 2000 baseline_max_tokens]
  let multi_turn_cases : List BaselineCaseResult :=
    [run_multi_turn_case llm effective_prompt "mt_20x_50_200"
        "20-turn conversation (50-200 user tokens/turn)"
        "Maintain consistency across turns and preserve key decisions while answering each turn concisely."
        multi_turn_targets baseline_max_tokens]
  let extraction_cases : List BaselineCaseResult :=
    [run_single_turn_case llm effective_prompt "extract_400"
        "Structured Extraction (400 user tokens)"
        "Extract entities into JSON with keys: people, organizations, dates, locations, and actions."
        400 baseline_max_tokens]
  let system_prompt_cases : List BaselineCaseResult :=
    system_prompt_targets.enum.map (fun it =>
      run_system_prompt_pressure_case llm effective_prompt
        ("sys_" ++ toString it.2)
        ("System Prompt Pressure (" ++ toString it.2 ++ " system tokens)")
        it.2 (100 + (it.1 * 37) % 201) baseline_max_tokens)
  let categories : List BaselineCategoryResult :=
    [⟨"simple_qa", "Simple Q/A", simple_qa_cases⟩,
      ⟨"summarization", "Summarization Tasks", summarization_cases⟩,
      ⟨"multi_turn", "20-Turn Conversation", multi_turn_cases⟩,
      ⟨"structured_extraction", "Structured Extraction (Extra)",
        extraction_cases⟩,
      ⟨"system_prompt_pressure", "System Prompt Pressure",
        system_prompt_cases⟩]
  { model := model
    total_calls :=
      (categories.map (fun cat => (cat.cases.map (fun c => c.calls)).sum)).sum
    categories := categories }

/-! ### Baseline job progress (`main.py`) -/

/-- The slice of a `_baseline_jobs` entry that progress callbacks touch
(`main.py` lines 403-420 and 905-930). -/
structure BaselineJobState where
  total_calls : Nat
  completed_calls : Int
  current_step : String
  events : List String
deriving DecidableEq, Repr

/-- `_append_baseline_event` (`main.py` lines 403-409): append, then
`del events[:-100]` keeps only the last 100 entries. -/
def append_baseline_event (job : BaselineJobState) (message : String) :
    BaselineJobState :=
  let events := job.events ++ [message]
  { job with
    events :=
      if 100 < events.length then events.drop (events.length - 100)
      else events }

/-- `_baseline_progress` (`main.py` lines 412-420): set the current step and,
when the increment is positive, clamp the completed-call counter at
`total_calls`. -/
def baseline_progress (job : BaselineJobState) (step : String)
    (completed_inc : Int) : BaselineJobState :=
  let job1 := { job with current_step := step }
  if 0 < completed_inc then
    append_baseline_event
      { job1 with
        completed_calls :=
          min (job1.total_calls : Int) (job1.completed_calls + completed_inc) }
      ("Completed: " ++ step)
  else
    append_baseline_event job1 ("Running: " ++ step)

/-- The progress-relevant fields of a freshly created baseline job
(`start_baseline`, `main.py` lines 905-930). -/
def initialBaselineJob : BaselineJobState :=
  { total_calls := baseline_total_calls
    completed_calls := 0
    current_step := "Initializing"
    events := ["Baseline run started"] }

/-! ### Helper lemmas -/

theorem drop_oldest_loop_spec (max_context_tokens : Nat)
    (messages : List ChatMessageIn) (dropped : Nat) :
    ∃ k, drop_oldest_loop max_context_tokens messages dropped
        = (messages.take 2 ++ (messages.drop 2).drop k, dropped + k)
      ∧ k ≤ (messages.drop 2).length := by
  induction messages, dropped using drop_oldest_loop.induct max_context_tokens with
  | case1 msgs d hguard ih =>
    have hlen : 2 < msgs.length := hguard.1
    match msgs, hlen with
    | a :: b :: c :: rest, _ =>
      obtain ⟨k, hk, hkle⟩ := ih
      have heq : drop_oldest_loop max_context_tokens (a :: b :: c :: rest) d
          = drop_oldest_loop max_context_tokens
              ((a :: b :: c :: rest).eraseIdx 2) (d + 1) := by
        rw [drop_oldest_loop, dif_pos hguard]
      refine ⟨k + 1, ?_, ?_⟩
      · rw [heq, hk]
        simp only [List.eraseIdx, List.take, List.drop]
        refine Prod.ext ?_ ?_ <;> simp <;> omega
      · simp only [List.eraseIdx, List.drop] at hkle ⊢
        simp at hkle ⊢
        omega
  | case2 msgs d hguard =>
    rw [drop_oldest_loop, dif_neg hguard]
    exact ⟨0, by simp, by simp⟩

theorem drop_oldest_loop_post (max_context_tokens : Nat)
    (messages : List ChatMessageIn) (dropped : Nat) :
    (drop_oldest_loop max_context_tokens messages dropped).1.length ≤ 2 ∨
      estimateTokensForMessages
          (drop_oldest_loop max_context_tokens messages dropped).1
        ≤ max_context_tokens := by
  induction messages, dropped using drop_oldest_loop.induct max_context_tokens with
  | case1 msgs d hguard ih =>
    rw [drop_oldest_loop, dif_pos hguard]
    exact ih
  | case2 msgs d hguard =>
    rw [drop_oldest_loop, dif_neg hguard]
    push_neg at hguard
    by_cases h2 : 2 < msgs.length
    · exact Or.inr (hguard h2)
    · exact Or.inl (by show msgs.length ≤ 2; omega)

theorem drop_oldest_loop_length (max_context_tokens : Nat)
    (messages : List ChatMessageIn) (dropped : Nat) :
    (drop_oldest_loop max_context_tokens messages dropped).1.length
        + (drop_oldest_loop max_context_tokens messages dropped).2
      = messages.length + dropped := by
  obtain ⟨k, hk, hkle⟩ := drop_oldest_loop_spec max_context_tokens messages dropped
  rw [hk]
  simp only [List.length_append, List.length_take, List.length_drop] at *
  omega

theorem drop_oldest_loop_take_two (max_context_tokens : Nat)
    (x y : ChatMessageIn) (t : List ChatMessageIn) (dropped : Nat) :
    (drop_oldest_loop max_context_tokens (x :: y :: t) dropped).1.take 2
      = [x, y] := by
  obtain ⟨k, hk, -⟩ :=
    drop_oldest_loop_spec max_context_tokens (x :: y :: t) dropped
  rw [hk]
  simp

theorem drop_oldest_loop_head (max_context_tokens : Nat) (x : ChatMessageIn)
    (t : List ChatMessageIn) (dropped : Nat) :
    (drop_oldest_loop max_context_tokens (x :: t) dropped).1.head? = some x := by
  obtain ⟨k, hk, -⟩ :=
    drop_oldest_loop_spec max_context_tokens (x :: t) dropped
  rw [hk]
  cases t <;> simp

/-- The insertion flag of `compact_context` is exactly the trigger condition
of `main.py` line 1051. -/
theorem compact_context_applied_iff (s : StoredContextSettings) (p : String)
    (hist : List ChatMessageIn) :
    (compact_context s p hist).compaction_applied = true ↔
      (pyStrip s.compact_instructions ≠ "" ∧
        compact_threshold s ≤
          (estimateTokensForMessages (⟨"system", p⟩ :: hist) : ℤ)) := by
  simp only [compact_context]
  split_ifs with hc
  · simpa using hc
  · simpa using hc

/-- `ceil(n / 4)` over the rationals agrees with `(n + 3) / 4` in natural
division. -/
theorem ceil_nat_div_four (n : ℕ) :
    ⌈(n : ℚ) / 4⌉ = (((n + 3) / 4 : ℕ) : ℤ) := by
  have h1 : ⌈(n : ℚ) / 4⌉ = -⌊-((n : ℚ) / 4)⌋ := by
    rw [Int.floor_neg, neg_neg]
  have h2 : -((n : ℚ) / 4) = ((-(n : ℤ) : ℤ) : ℚ) / ((4 : ℕ) : ℚ) := by
    push_cast
    ring
  rw [h1, h2, Rat.floor_intCast_div_natCast]
  omega

theorem intercalate_go_length (sep : String) :
    ∀ (as : List String) (acc : String),
      acc.length ≤ (String.intercalate.go acc sep as).length
  | [], acc => by
      rw [String.intercalate.go]
  | a :: as, acc => by
      rw [String.intercalate.go]
      refine le_trans ?_ (intercalate_go_length sep as (acc ++ sep ++ a))
      simp only [String.length_append]
      omega

theorem length_pos_of_ne_empty {s : String} (h : s ≠ "") : 0 < s.length := by
  rcases s with ⟨data⟩
  cases data with
  | nil => exact absurd rfl h
  | cons c cs => simp [String.length]

theorem intercalate_ne_empty (sep : String) (a : String) (as : List String)
    (ha : a ≠ "") : String.intercalate sep (a :: as) ≠ "" := by
  intro hcontra
  have h1 : a.length ≤ (String.intercalate sep (a :: as)).length := by
    rw [String.intercalate]
    exact intercalate_go_length sep as a
  rw [hcontra] at h1
  have h2 : 0 < a.length := length_pos_of_ne_empty ha
  have h0 : ("" : String).length = 0 := rfl
  omega

/-- A list whose ids are distinct and which contains exactly one element
satisfying a predicate has `countP` equal to one. -/
theorem countP_eq_one_of_unique {α : Type _} (p : α → Bool) :
    ∀ (l : List α) (a : α), l.Nodup → a ∈ l → p a = true →
      (∀ b ∈ l, p b = true → b = a) → l.countP p = 1
  | [], a, _, ha, _, _ => by cases ha
  | x :: t, a, hnd, ha, hpa, huniq => by
    rw [List.countP_cons]
    rcases List.mem_cons.mp ha with rfl | hat
    · have ht0 : t.countP p = 0 := by
        rw [List.countP_eq_zero]
        intro b hb hpb
        have hba : b = a := huniq b (List.mem_cons_of_mem a hb) hpb
        subst hba
        exact absurd hb (List.nodup_cons.mp hnd).1
      simp [hpa, ht0]
    · have hx : p x = false := by
        by_contra hpx
        rw [Bool.not_eq_false] at hpx
        have hxa := huniq x (List.mem_cons_self x t) hpx
        subst hxa
        exact absurd hat (List.nodup_cons.mp hnd).1
      have hrec := countP_eq_one_of_unique p t a (List.nodup_cons.mp hnd).2
        hat hpa (fun b hb hpb => huniq b (List.mem_cons_of_mem x hb) hpb)
      simp [hx, hrec]


/-- Case analysis for `compact_context`: either the trigger condition holds
and the instruction message is inserted at position 1, or it does not and the
assembled list goes to the eviction loop unchanged. -/
theorem compact_context_cases (s : StoredContextSettings) (prompt : String)
    (history : List ChatMessageIn) :
    (compact_context s prompt history
        = { messages := (drop_oldest_loop s.max_context_tokens
              (⟨"system", prompt⟩ ::
                ⟨"system", pyStrip s.compact_instructions⟩ :: history) 0).1
            compaction_applied := true
            dropped_history_messages := (drop_oldest_loop s.max_context_tokens
              (⟨"system", prompt⟩ ::
                ⟨"system", pyStrip s.compact_instructions⟩ :: history) 0).2
            est_prompt_tokens_before :=
              estimateTokensForMessages (⟨"system", prompt⟩ :: history)
            est_prompt_tokens_after :=
              estimateTokensForMessages (drop_oldest_loop s.max_context_tokens
                (⟨"system", prompt⟩ ::
                  ⟨"system", pyStrip s.compact_instructions⟩ :: history) 0).1
            trigger_tokens := compact_threshold s }
        ∧ (pyStrip s.compact_instructions ≠ "" ∧ compact_threshold s ≤
            (estimateTokensForMessages (⟨"system", prompt⟩ :: history) : ℤ)))
    ∨ (compact_context s prompt history
        = { messages := (drop_oldest_loop s.max_context_tokens
              (⟨"system", prompt⟩ :: history) 0).1
            compaction_applied := false
            dropped_history_messages := (drop_oldest_loop s.max_context_tokens
              (⟨"system", prompt⟩ :: history) 0).2
            est_prompt_tokens_before :=
              estimateTokensForMessages (⟨"system", prompt⟩ :: history)
            est_prompt_tokens_after :=
              estimateTokensForMessages (drop_oldest_loop s.max_context_tokens
                (⟨"system", prompt⟩ :: history) 0).1
            trigger_tokens := compact_threshold s }
        ∧ ¬(pyStrip s.compact_instructions ≠ "" ∧ compact_threshold s ≤
            (estimateTokensForMessages (⟨"system", prompt⟩ :: history) : ℤ))) := by
  by_cases hc : pyStrip s.compact_instructions ≠ "" ∧ compact_threshold s ≤
      (estimateTokensForMessages (⟨"system", prompt⟩ :: history) : ℤ)
  · left
    refine ⟨?_, hc⟩
    simp only [compact_context]
    rw [if_pos hc]
    rfl
  · right
    refine ⟨?_, hc⟩
    simp only [compact_context]
    rw [if_neg hc]

/-! ### Claims -/

/-- C1: during a chat turn's compaction, while the assembled message list has
more than 2 entries and the estimated token count exceeds
`max_context_tokens`, the eviction loop removes exactly the message at
position 2 — the oldest entry after the two leading messages — one message
per iteration, and increments the drop counter by 1 for each removal; when
the guard fails it stops, and the final counter counts exactly the removed
messages. -/
theorem claim_C1_drop_loop (max_context_tokens : Nat)
    (messages : List ChatMessageIn) (dropped : Nat) :
    ((2 < messages.length ∧
        max_context_tokens < estimateTokensForMessages messages) →
      drop_oldest_loop max_context_tokens messages dropped
        = drop_oldest_loop max_context_tokens (messages.eraseIdx 2)
            (dropped + 1))
    ∧ (¬(2 < messages.length ∧
        max_context_tokens < estimateTokensForMessages messages) →
      drop_oldest_loop max_context_tokens messages dropped
        = (messages, dropped))
    ∧ (drop_oldest_loop max_context_tokens messages dropped).2
        = dropped + (messages.length
            - (drop_oldest_loop max_context_tokens
                messages dropped).1.length) := by
  refine ⟨?_, ?_, ?_⟩
  · intro hg
    conv_lhs => rw [drop_oldest_loop]
    rw [dif_pos hg]
  · intro hg
    rw [drop_oldest_loop, dif_neg hg]
  · obtain ⟨k, hk, hkle⟩ :=
      drop_oldest_loop_spec max_context_tokens messages dropped
    rw [hk]
    simp only [List.length_append, List.length_take, List.length_drop] at *
    omega

/-- Witness for C1: a concrete over-budget four-message list. -/
theorem claim_C1_drop_loop_witness :
    (2 < ([⟨"system", "aaaa"⟩, ⟨"user", "bbbb"⟩, ⟨"user", "cccc"⟩,
        ⟨"user", "dddd"⟩] : List ChatMessageIn).length ∧
      1 < estimateTokensForMessages [⟨"system", "aaaa"⟩, ⟨"user", "bbbb"⟩,
        ⟨"user", "cccc"⟩, ⟨"user", "dddd"⟩])
    ∧ drop_oldest_loop 1 [⟨"system", "aaaa"⟩, ⟨"user", "bbbb"⟩,
        ⟨"user", "cccc"⟩, ⟨"user", "dddd"⟩] 0
      = drop_oldest_loop 1
          (([⟨"system", "aaaa"⟩, ⟨"user", "bbbb"⟩, ⟨"user", "cccc"⟩,
            ⟨"user", "dddd"⟩] : List ChatMessageIn).eraseIdx 2) (0 + 1) :=
  ⟨by decide, (claim_C1_drop_loop 1 _ 0).1 (by decide)⟩

/-- C3: the compactor keeps the primary composed system prompt at index 0
(it is never dropped), inserts at most one instruction message per turn (the
returned size plus the drop count account for the assembled list exactly),
and the remove-oldest loop strictly decreases the list size each iteration
and terminates once the size is at most 2 or the estimate no longer exceeds
`max_context_tokens`. -/
theorem claim_C3_compactor_invariants (s : StoredContextSettings)
    (prompt : String) (history : List ChatMessageIn) :
    ((compact_context s prompt history).messages.head?
        = some ⟨"system", prompt⟩)
    ∧ ((compact_context s prompt history).messages.length
          + (compact_context s prompt history).dropped_history_messages
        = 1 + (if (compact_context s prompt history).compaction_applied
            then 1 else 0) + history.length)
    ∧ ((compact_context s prompt history).messages.length ≤ 2 ∨
        estimateTokensForMessages (compact_context s prompt history).messages
          ≤ s.max_context_tokens)
    ∧ (∀ (msgs : List ChatMessageIn) (d : Nat),
        2 < msgs.length →
        s.max_context_tokens < estimateTokensForMessages msgs →
          drop_oldest_loop s.max_context_tokens msgs d
              = drop_oldest_loop s.max_context_tokens (msgs.eraseIdx 2) (d + 1)
            ∧ (msgs.eraseIdx 2).length < msgs.length) := by
  have hloop : ∀ (msgs : List ChatMessageIn) (d : Nat),
      2 < msgs.length →
      s.max_context_tokens < estimateTokensForMessages msgs →
        drop_oldest_loop s.max_context_tokens msgs d
            = drop_oldest_loop s.max_context_tokens (msgs.eraseIdx 2) (d + 1)
          ∧ (msgs.eraseIdx 2).length < msgs.length := by
    intro msgs d h2 hest
    refine ⟨?_, ?_⟩
    · conv_lhs => rw [drop_oldest_loop]
      rw [dif_pos ⟨h2, hest⟩]
    · rw [List.length_eraseIdx_of_lt (by omega)]
      omega
  rcases compact_context_cases s prompt history with ⟨heq, -⟩ | ⟨heq, -⟩ <;>
      rw [heq]
  · refine ⟨drop_oldest_loop_head _ _ _ _, ?_, ?_, hloop⟩
    · have hlen := drop_oldest_loop_length s.max_context_tokens
        (⟨"system", prompt⟩ ::
          ⟨"system", pyStrip s.compact_instructions⟩ :: history) 0
      simp only [List.length_cons] at hlen
      simp only [if_true]
      omega
    · exact drop_oldest_loop_post s.max_context_tokens _ 0
  · refine ⟨drop_oldest_loop_head _ _ _ _, ?_, ?_, hloop⟩
    · have hlen := drop_oldest_loop_length s.max_context_tokens
        (⟨"system", prompt⟩ :: history) 0
      simp only [List.length_cons] at hlen
      simp only [Bool.false_eq_true, if_false]
      omega
    · exact drop_oldest_loop_post s.max_context_tokens _ 0

/-- Witness for C3: the strict-decrease conjunct at a concrete list. -/
theorem claim_C3_compactor_invariants_witness :
    (2 < ([⟨"system", "s1s1"⟩, ⟨"user", "u1u1"⟩, ⟨"user", "u2u2"⟩,
        ⟨"assistant", "a1a1"⟩] : List ChatMessageIn).length ∧
      (⟨1, 512, 9/10, ""⟩ : StoredContextSettings).max_context_tokens
        < estimateTokensForMessages [⟨"system", "s1s1"⟩, ⟨"user", "u1u1"⟩,
            ⟨"user", "u2u2"⟩, ⟨"assistant", "a1a1"⟩])
    ∧ (([⟨"system", "s1s1"⟩, ⟨"user", "u1u1"⟩, ⟨"user", "u2u2"⟩,
        ⟨"assistant", "a1a1"⟩] : List ChatMessageIn).eraseIdx 2).length
      < ([⟨"system", "s1s1"⟩, ⟨"user", "u1u1"⟩, ⟨"user", "u2u2"⟩,
        ⟨"assistant", "a1a1"⟩] : List ChatMessageIn).length :=
  ⟨by decide,
    ((claim_C3_compactor_invariants ⟨1, 512, 9/10, ""⟩ "p" []).2.2.2
      [⟨"system", "s1s1"⟩, ⟨"user", "u1u1"⟩, ⟨"user", "u2u2"⟩,
        ⟨"assistant", "a1a1"⟩] 0 (by decide) (by decide)).2⟩

/-- C2 counterexample: the claim requires insertion whenever
`compact_instructions` is non-empty (and the estimate reaches the threshold),
but the code first strips the instructions: a whitespace-only instructions
string is non-empty, the estimate (95) reaches the threshold (90), and yet no
instruction message is inserted. -/
theorem claim_C2_counterexample :
    ((⟨100, 512, 9/10, " "⟩ : StoredContextSettings).compact_instructions
        ≠ "")
    ∧ compact_threshold ⟨100, 512, 9/10, " "⟩
        ≤ ((compact_context ⟨100, 512, 9/10, " "⟩ ""
            [⟨"user", String.mk (List.replicate 380 'a')⟩]
            ).est_prompt_tokens_before : ℤ)
    ∧ (compact_context ⟨100, 512, 9/10, " "⟩ ""
        [⟨"user", String.mk (List.replicate 380 'a')⟩]).compaction_applied
        = false := by
  refine ⟨by decide, ?_, ?_⟩
  · have h1 : compact_threshold ⟨100, 512, 9/10, " "⟩ = 90 := by
      rw [compact_threshold]
      norm_num
    have h2 : (compact_context ⟨100, 512, 9/10, " "⟩ ""
        [⟨"user", String.mk (List.replicate 380 'a')⟩]
        ).est_prompt_tokens_before = 95 := by
      rw [show (compact_context ⟨100, 512, 9/10, " "⟩ ""
          [⟨"user", String.mk (List.replicate 380 'a')⟩]
          ).est_prompt_tokens_before
        = estimateTokensForMessages [⟨"system", ""⟩,
            ⟨"user", String.mk (List.replicate 380 'a')⟩] from rfl]
      decide
    rw [h1, h2]
    norm_num
  · rw [Bool.eq_false_iff]
    intro hap
    rw [compact_context_applied_iff] at hap
    exact hap.1 (by decide)

/-- C2 amended: the instruction message is inserted at position 1 (right
after the primary system prompt) if and only if the compaction instructions
are non-empty AFTER TRIMMING (a whitespace-only string never triggers) and
the estimate of the assembled list reaches
`int(max_context_tokens * compact_trigger_pct)`; with
`max_context_tokens = 100` and `compact_trigger_pct = 0.9`, an estimated size
of 95 tokens triggers the insertion and an estimated size of 50 does not. -/
theorem claim_C2_instruction_insertion (s : StoredContextSettings)
    (prompt : String) (history : List ChatMessageIn) :
    ((compact_context s prompt history).compaction_applied = true ↔
      (pyStrip s.compact_instructions ≠ "" ∧
        compact_threshold s ≤
          ((compact_context s prompt history).est_prompt_tokens_before : ℤ)))
    ∧ ((compact_context s prompt history).compaction_applied = true →
        (compact_context s prompt history).messages.take 2
          = [⟨"system", prompt⟩,
             ⟨"system", pyStrip s.compact_instructions⟩])
    ∧ (compact_context ⟨100, 512, 9/10, "Summarize older turns."⟩ ""
        [⟨"user", String.mk (List.replicate 380 'a')⟩]).compaction_applied
        = true
    ∧ (compact_context ⟨100, 512, 9/10, "Summarize older turns."⟩ ""
        [⟨"user", String.mk (List.replicate 200 'a')⟩]).compaction_applied
        = false := by
  refine ⟨?_, ?_, ?_, ?_⟩
  · rw [show (compact_context s prompt history).est_prompt_tokens_before
        = estimateTokensForMessages (⟨"system", prompt⟩ :: history) from ?_]
    · exact compact_context_applied_iff s prompt history
    · rcases compact_context_cases s prompt history with ⟨heq, -⟩ | ⟨heq, -⟩ <;>
        rw [heq]
  · intro hap
    have hc := (compact_context_applied_iff s prompt history).mp hap
    rcases compact_context_cases s prompt history with ⟨heq, -⟩ | ⟨heq, hnc⟩
    · rw [heq]
      exact drop_oldest_loop_take_two _ _ _ _ _
    · exact absurd hc hnc
  · rw [compact_context_applied_iff]
    refine ⟨by decide, ?_⟩
    have h1 : compact_threshold ⟨100, 512, 9/10, "Summarize older turns."⟩
        = 90 := by
      rw [compact_threshold]
      norm_num
    have h2 : estimateTokensForMessages [⟨"system", ""⟩,
        ⟨"user", String.mk (List.replicate 380 'a')⟩] = 95 := by decide
    rw [h1, h2]
    norm_num
  · rw [Bool.eq_false_iff]
    intro hap
    have hc := (compact_context_applied_iff _ _ _).mp hap
    have h1 : compact_threshold ⟨100, 512, 9/10, "Summarize older turns."⟩
        = 90 := by
      rw [compact_threshold]
      norm_num
    have h2 : estimateTokensForMessages [⟨"system", ""⟩,
        ⟨"user", String.mk (List.replicate 200 'a')⟩] = 50 := by decide
    rw [h1, h2] at hc
    omega

/-- Witness for the amended C2: at the concrete triggering input, the
instruction message indeed sits at position 1. -/
theorem claim_C2_instruction_insertion_witness :
    ((compact_context ⟨100, 512, 9/10, "Summarize older turns."⟩ ""
        [⟨"user", String.mk (List.replicate 380 'a')⟩]).compaction_applied
        = true)
    ∧ (compact_context ⟨100, 512, 9/10, "Summarize older turns."⟩ ""
        [⟨"user", String.mk (List.replicate 380 'a')⟩]).messages.take 2
      = [⟨"system", ""⟩,
         ⟨"system", pyStrip "Summarize older turns."⟩] :=
  ⟨(claim_C2_instruction_insertion ⟨100, 512, 9/10, "Summarize older turns."⟩
      "" [⟨"user", String.mk (List.replicate 380 'a')⟩]).2.2.1,
    (claim_C2_instruction_insertion ⟨100, 512, 9/10, "Summarize older turns."⟩
      "" [⟨"user", String.mk (List.replicate 380 'a')⟩]).2.1
      ((claim_C2_instruction_insertion
        ⟨100, 512, 9/10, "Summarize older turns."⟩
        "" [⟨"user", String.mk (List.replicate 380 'a')⟩]).2.2.1)⟩

/-- C4: the token estimator returns `max(1, ceil(totalCharacters / 4))` for
both message lists and plain text, is always at least 1 (including for the
empty string), and is monotonically non-decreasing in total character
length. -/
theorem claim_C4_token_estimator :
    (∀ messages : List ChatMessageIn,
      (estimateTokensForMessages messages : ℤ)
        = max 1 ⌈(charCount messages : ℚ) / 4⌉)
    ∧ (∀ text : String,
      (estimateTokensForText text : ℤ) = max 1 ⌈(text.length : ℚ) / 4⌉)
    ∧ (∀ messages : List ChatMessageIn, 1 ≤ estimateTokensForMessages messages)
    ∧ (∀ text : String, 1 ≤ estimateTokensForText text)
    ∧ estimateTokensForText "" = 1
    ∧ (∀ m1 m2 : List ChatMessageIn, charCount m1 ≤ charCount m2 →
        estimateTokensForMessages m1 ≤ estimateTokensForMessages m2)
    ∧ (∀ t1 t2 : String, t1.length ≤ t2.length →
        estimateTokensForText t1 ≤ estimateTokensForText t2) := by
  refine ⟨?_, ?_, ?_, ?_, ?_, ?_, ?_⟩
  · intro messages
    rw [estimateTokensForMessages, ceil_nat_div_four, Nat.cast_max]
    norm_num
  · intro text
    rw [estimateTokensForText, ceil_nat_div_four, Nat.cast_max]
    norm_num
  · intro messages
    exact le_max_left 1 _
  · intro text
    exact le_max_left 1 _
  · rfl
  · intro m1 m2 hle
    exact max_le_max le_rfl (Nat.div_le_div_right (by omega))
  · intro t1 t2 hle
    exact max_le_max le_rfl (Nat.div_le_div_right (by omega))

/-- Witness for C4: monotonicity at concrete message lists. -/
theorem claim_C4_token_estimator_witness :
    charCount [⟨"user", "hi"⟩] ≤ charCount [⟨"user", "hello there"⟩]
    ∧ estimateTokensForMessages [⟨"user", "hi"⟩]
        ≤ estimateTokensForMessages [⟨"user", "hello there"⟩] :=
  ⟨by decide, claim_C4_token_estimator.2.2.2.2.2.1 [⟨"user", "hi"⟩]
      [⟨"user", "hello there"⟩] (by decide)⟩


/-- C5: `compose_system_prompt` keeps only enabled components with non-empty
trimmed content, in order-ascending sequence, joins their trimmed contents
with a blank-line separator, and falls back to the fixed sentence when
nothing survives (empty input, or all components disabled), so the result is
never empty. -/
theorem claim_C5_compose_system_prompt :
    compose_system_prompt [] = "You are a helpful local AI assistant."
    ∧ (∀ components : List PromptComponent,
        (∀ c ∈ components, c.enabled = false) →
          compose_system_prompt components
            = "You are a helpful local AI assistant.")
    ∧ (∀ components : List PromptComponent,
        compose_system_prompt components ≠ "")
    ∧ (∀ components : List PromptComponent,
        (surviving_components components).Perm
            (components.filter (fun c => c.enabled && pyStrip c.content != ""))
        ∧ (surviving_components components).Pairwise
            (fun a b => a.order ≤ b.order)
        ∧ (∀ c ∈ surviving_components components,
            c.enabled = true ∧ pyStrip c.content ≠ "")
        ∧ (surviving_components components = [] →
            compose_system_prompt components
              = "You are a helpful local AI assistant.")
        ∧ (surviving_components components ≠ [] →
            compose_system_prompt components
              = String.intercalate "\n\n"
                  ((surviving_components components).map
                    (fun c => pyStrip c.content)))) := by
  have hmem_surv : ∀ (components : List PromptComponent),
      ∀ c ∈ surviving_components components,
        c.enabled = true ∧ pyStrip c.content ≠ "" := by
    intro components c hc
    rw [surviving_components, List.mem_filter] at hc
    have hb := hc.2
    rw [Bool.and_eq_true] at hb
    exact ⟨hb.1, by simpa [bne_iff_ne] using hb.2⟩
  have hfallback : ∀ (components : List PromptComponent),
      surviving_components components = [] →
        compose_system_prompt components
          = "You are a helpful local AI assistant." := by
    intro components hnil
    simp only [compose_system_prompt, hnil, List.map_nil, if_pos]
    rfl
  have hjoin : ∀ (components : List PromptComponent),
      surviving_components components ≠ [] →
        compose_system_prompt components
          = String.intercalate "\n\n"
              ((surviving_components components).map
                (fun c => pyStrip c.content)) := by
    intro components hne
    have hmap : ((surviving_components components).map
        (fun c => pyStrip c.content)) ≠ [] := by
      simpa [List.map_eq_nil_iff] using hne
    simp only [compose_system_prompt]
    rw [if_neg hmap]
  refine ⟨?_, ?_, ?_, ?_⟩
  · apply hfallback
    simp [surviving_components, sorted_components]
  · intro components hdis
    apply hfallback
    rw [surviving_components, List.filter_eq_nil_iff]
    intro c hc
    have hcm : c ∈ components := by
      rwa [sorted_components, List.mem_mergeSort] at hc
    simp [hdis c hcm]
  · intro components
    by_cases hs : surviving_components components = []
    · rw [hfallback components hs]
      decide
    · rw [hjoin components hs]
      cases hsl : surviving_components components with
      | nil => exact absurd hsl hs
      | cons c rest =>
        rw [List.map_cons]
        apply intercalate_ne_empty
        exact (hmem_surv components c (hsl ▸ List.mem_cons_self c rest)).2
  · intro components
    refine ⟨?_, ?_, hmem_surv components, hfallback components,
      hjoin components⟩
    · rw [surviving_components, sorted_components]
      exact (List.mergeSort_perm components _).filter _
    · have htrans : ∀ a b c : PromptComponent,
          decide (a.order ≤ b.order) → decide (b.order ≤ c.order) →
            decide (a.order ≤ c.order) := by
        intro a b c hab hbc
        simp only [decide_eq_true_eq] at *
        omega
      have htotal : ∀ a b : PromptComponent,
          decide (a.order ≤ b.order) || decide (b.order ≤ a.order) := by
        intro a b
        simp only [Bool.or_eq_true, decide_eq_true_eq]
        omega
      have hp := List.sorted_mergeSort htrans htotal components
      have hps : (sorted_components components).Pairwise
          (fun a b => a.order ≤ b.order) := by
        rw [sorted_components]
        exact hp.imp (fun hab => by simpa [decide_eq_true_eq] using hab)
      rw [surviving_components]
      exact hps.filter _

/-- Witness for C5: composing a single disabled component yields the
fallback. -/
theorem claim_C5_compose_system_prompt_witness :
    (∀ c ∈ ([⟨"tone", "tone.md", "/p/tone.md", "Be kind.", 0, false, true⟩]
        : List PromptComponent), c.enabled = false)
    ∧ compose_system_prompt
        [⟨"tone", "tone.md", "/p/tone.md", "Be kind.", 0, false, true⟩]
        = "You are a helpful local AI assistant." :=
  ⟨by decide, claim_C5_compose_system_prompt.2.1 _ (by decide)⟩


theorem deactivate_tenant_row_fields (tenant_id : String)
    (p : StoredPromptProfile) :
    (deactivate_tenant_row tenant_id p).id = p.id
    ∧ (deactivate_tenant_row tenant_id p).tenant_id = p.tenant_id
    ∧ (deactivate_tenant_row tenant_id p).name = p.name
    ∧ (deactivate_tenant_row tenant_id p).is_default = p.is_default := by
  rw [deactivate_tenant_row]
  split <;> exact ⟨rfl, rfl, rfl, rfl⟩

theorem activate_row_fields (profile_id now : String)
    (p : StoredPromptProfile) :
    (activate_row profile_id now p).id = p.id
    ∧ (activate_row profile_id now p).tenant_id = p.tenant_id
    ∧ (activate_row profile_id now p).name = p.name
    ∧ (activate_row profile_id now p).is_default = p.is_default := by
  rw [activate_row]
  split <;> exact ⟨rfl, rfl, rfl, rfl⟩

/-- Activation semantics of the two chained updates on a row of the target
tenant: it ends active exactly when it is the targeted row. -/
theorem activate_after_deactivate_is_active (tenant_id profile_id now : String)
    (q : StoredPromptProfile) (hq : q.tenant_id = tenant_id) :
    ((activate_row profile_id now (deactivate_tenant_row tenant_id q)
        ).is_active = true ↔ q.id = profile_id) := by
  by_cases hid : q.id = profile_id
  · simp [activate_row, deactivate_tenant_row, hq, hid]
  · simp [activate_row, deactivate_tenant_row, hq, hid]

/-- A row of a different tenant never gains the target tenant after the two
chained updates, and a non-targeted row of the target tenant ends
inactive. -/
theorem activate_after_deactivate_pred (tenant_id profile_id now : String)
    (q : StoredPromptProfile) (hid : q.id ≠ profile_id) :
    ((activate_row profile_id now
        (deactivate_tenant_row tenant_id q)).tenant_id == tenant_id
      && (activate_row profile_id now
        (deactivate_tenant_row tenant_id q)).is_active) = false := by
  by_cases ht : q.tenant_id = tenant_id
  · simp [activate_row, deactivate_tenant_row, ht, hid]
  · simp [activate_row, deactivate_tenant_row, ht, hid]

/-- C7: after a successful `activate(id)` exactly one profile of the tenant
is active — the one with that id — and all tenant siblings are inactive,
while ids, tenants, names and default flags are untouched; when the id does
not belong to the tenant, activation reports `False` (the endpoint maps this
to a NotFound error) and every stored row is unchanged.  The id-uniqueness
hypothesis mirrors the `id TEXT PRIMARY KEY` constraint of
`prompt_profiles`. -/
theorem claim_C7_activate_profile (table : List StoredPromptProfile)
    (tenant pid now : String)
    (hids : (table.map (fun p => p.id)).Nodup) :
    ((¬ ∃ p ∈ table, p.id = pid ∧ p.tenant_id = tenant) →
        activate_prompt_profile table tenant pid now = (false, table))
    ∧ ((∃ p ∈ table, p.id = pid ∧ p.tenant_id = tenant) →
        (activate_prompt_profile table tenant pid now).1 = true
        ∧ (∀ q ∈ (activate_prompt_profile table tenant pid now).2,
            q.tenant_id = tenant → (q.is_active = true ↔ q.id = pid))
        ∧ (activate_prompt_profile table tenant pid now).2.countP
              (fun q => q.tenant_id == tenant && q.is_active) = 1
        ∧ (activate_prompt_profile table tenant pid now).2.map
              (fun q => (q.id, q.tenant_id, q.name, q.is_default))
            = table.map
                (fun q => (q.id, q.tenant_id, q.name, q.is_default))) := by
  have hany : (table.any
        (fun p => p.id == pid && p.tenant_id == tenant)) = true
      ↔ ∃ p ∈ table, p.id = pid ∧ p.tenant_id = tenant := by
    simp [List.any_eq_true]
  constructor
  · intro hnone
    rw [activate_prompt_profile, if_neg (fun h => hnone (hany.mp h))]
  · intro hsome
    have hcond := hany.mpr hsome
    obtain ⟨p0, hp0mem, hp0id, hp0t⟩ := hsome
    have hinj := List.inj_on_of_nodup_map hids
    rw [activate_prompt_profile, if_pos hcond]
    refine ⟨rfl, ?_, ?_, ?_⟩
    · intro q hq htq
      rw [List.map_map, List.mem_map] at hq
      obtain ⟨q0, hq0, hqr⟩ := hq
      rw [Function.comp_apply] at hqr
      subst hqr
      have hfid := (activate_row_fields pid now
        (deactivate_tenant_row tenant q0)).1
      have hdid := (deactivate_tenant_row_fields tenant q0).1
      rw [hfid, hdid]
      apply activate_after_deactivate_is_active
      have hft := (activate_row_fields pid now
        (deactivate_tenant_row tenant q0)).2.1
      have hdt := (deactivate_tenant_row_fields tenant q0).2.1
      rw [hft, hdt] at htq
      exact htq
    · have hcongr : ∀ q ∈ table,
          ((fun q : StoredPromptProfile =>
              q.tenant_id == tenant && q.is_active)
            ((activate_row pid now ∘ deactivate_tenant_row tenant) q) = true)
          ↔ ((fun q : StoredPromptProfile => q.id == pid) q = true) := by
        intro q hq
        show ((activate_row pid now
              (deactivate_tenant_row tenant q)).tenant_id == tenant
            && (activate_row pid now
              (deactivate_tenant_row tenant q)).is_active) = true
          ↔ (q.id == pid) = true
        constructor
        · intro hpred
          by_cases hid : q.id = pid
          · simp [hid]
          · rw [activate_after_deactivate_pred tenant pid now q hid] at hpred
            cases hpred
        · intro hpred
          rw [beq_iff_eq] at hpred
          have hq0 : q = p0 := hinj hq hp0mem (by rw [hpred, hp0id])
          have hqt : q.tenant_id = tenant := by rw [hq0, hp0t]
          have hactive := (activate_after_deactivate_is_active tenant pid now
            q hqt).mpr hpred
          have hft := (activate_row_fields pid now
            (deactivate_tenant_row tenant q)).2.1
          have hdt := (deactivate_tenant_row_fields tenant q).2.1
          rw [Bool.and_eq_true, hactive, hft, hdt, hqt]
          exact ⟨by simp, rfl⟩
      have hstep : ((table.map (deactivate_tenant_row tenant)).map
            (activate_row pid now)).countP
          (fun q => q.tenant_id == tenant && q.is_active)
          = table.countP (fun q => q.id == pid) := by
        rw [List.map_map, List.countP_map]
        exact List.countP_congr hcongr
      rw [hstep]
      exact countP_eq_one_of_unique _ table p0 (hids.of_map _) hp0mem
        (by simp [hp0id])
        (fun b hb hpb => hinj hb hp0mem
          (by rw [show b.id = pid by simpa using hpb, hp0id]))
    · rw [List.map_map, List.map_map]
      apply List.map_congr_left
      intro q hq
      rw [Function.comp_apply, Function.comp_apply]
      have hf := activate_row_fields pid now (deactivate_tenant_row tenant q)
      have hd := deactivate_tenant_row_fields tenant q
      rw [hf.1, hf.2.1, hf.2.2.1, hf.2.2.2, hd.1, hd.2.1, hd.2.2.1, hd.2.2.2]

/-- Witness for C7: activating the second of two profiles of the tenant
succeeds. -/
theorem claim_C7_activate_profile_witness :
    (([⟨"p1", "t1", "Default", true, true, "0"⟩,
        ⟨"p2", "t1", "Alt", false, false, "0"⟩]
        : List StoredPromptProfile).map (fun p => p.id)).Nodup
    ∧ (∃ p ∈ ([⟨"p1", "t1", "Default", true, true, "0"⟩,
        ⟨"p2", "t1", "Alt", false, false, "0"⟩]
        : List StoredPromptProfile), p.id = "p2" ∧ p.tenant_id = "t1")
    ∧ (activate_prompt_profile
        [⟨"p1", "t1", "Default", true, true, "0"⟩,
          ⟨"p2", "t1", "Alt", false, false, "0"⟩] "t1" "p2" "1").1 = true :=
  ⟨by decide, by decide,
    ((claim_C7_activate_profile
        [⟨"p1", "t1", "Default", true, true, "0"⟩,
          ⟨"p2", "t1", "Alt", false, false, "0"⟩] "t1" "p2" "1"
        (by decide)).2 (by decide)).1⟩


/-- C8: overriding a component with `enabled = false` removes it from the
composed system prompt (it never survives the composition filter), and a
reset discards all overrides, so the effective components equal the defaults
again and the composed prompt returns to its exact pre-override value. -/
theorem claim_C8_override_reset_roundtrip (defaults : List PromptComponent)
    (cid : String) :
    (∀ c ∈ surviving_components (effective_prompt_components defaults
        (fun i => if i = cid then some ⟨none, some false⟩ else none)),
      c.id ≠ cid)
    ∧ effective_prompt_components defaults resetOverrides = defaults
    ∧ compose_system_prompt (effective_prompt_components defaults
        resetOverrides) = compose_system_prompt defaults := by
  have hreset : effective_prompt_components defaults resetOverrides
      = defaults := by
    rw [effective_prompt_components]
    have hid : ∀ item ∈ defaults,
        (fun item => applyOverride item (resetOverrides item.id)) item
          = id item := fun item _ => rfl
    rw [List.map_congr_left hid, List.map_id]
  refine ⟨?_, hreset, by rw [hreset]⟩
  intro c hc hcid
  have hen := (List.mem_filter.mp hc).2
  rw [Bool.and_eq_true] at hen
  have hcm : c ∈ effective_prompt_components defaults
      (fun i => if i = cid then some ⟨none, some false⟩ else none) := by
    have := (List.mem_filter.mp hc).1
    rwa [sorted_components, List.mem_mergeSort] at this
  rw [effective_prompt_components, List.mem_map] at hcm
  obtain ⟨item, -, hitem⟩ := hcm
  have hiid : c.id = item.id := by
    rw [← hitem]
    show (applyOverride item
      (if item.id = cid then some ⟨none, some false⟩ else none)).id = item.id
    by_cases hic : item.id = cid
    · rw [if_pos hic]
      rfl
    · rw [if_neg hic]
      rfl
  have hitemid : item.id = cid := by rw [← hiid, hcid]
  have hoff : c.enabled = false := by
    rw [← hitem]
    show (applyOverride item
        (if item.id = cid then some ⟨none, some false⟩ else none)).enabled
      = false
    rw [if_pos hitemid]
    rfl
  rw [hoff] at hen
  cases hen.1

/-- Witness for C8: with two default components, disabling one by an
override leaves the other as the only survivor, whose id differs from the
overridden one. -/
theorem claim_C8_override_reset_roundtrip_witness :
    (⟨"style", "style.md", "/p/style.md", "Use plain words.", 1, true, true⟩
        : PromptComponent) ∈ surviving_components
      (effective_prompt_components
        [⟨"core", "core.md", "/p/core.md", "Stay factual.", 0, true, true⟩,
          ⟨"style", "style.md", "/p/style.md", "Use plain words.", 1, true,
            true⟩]
        (fun i => if i = "core" then some ⟨none, some false⟩ else none))
    ∧ (⟨"style", "style.md", "/p/style.md", "Use plain words.", 1, true,
        true⟩ : PromptComponent).id ≠ "core" := by
  have heff : effective_prompt_components
      [⟨"core", "core.md", "/p/core.md", "Stay factual.", 0, true, true⟩,
        ⟨"style", "style.md", "/p/style.md", "Use plain words.", 1, true,
          true⟩]
      (fun i => if i = "core" then some ⟨none, some false⟩ else none)
      = [⟨"core", "core.md", "/p/core.md", "Stay factual.", 0, false, true⟩,
          ⟨"style", "style.md", "/p/style.md", "Use plain words.", 1, true,
            true⟩] := by
    decide
  have hsorted : sorted_components
      [⟨"core", "core.md", "/p/core.md", "Stay factual.", 0, false, true⟩,
        ⟨"style", "style.md", "/p/style.md", "Use plain words.", 1, true,
          true⟩]
      = [⟨"core", "core.md", "/p/core.md", "Stay factual.", 0, false, true⟩,
          ⟨"style", "style.md", "/p/style.md", "Use plain words.", 1, true,
            true⟩] := by
    rw [sorted_components]
    exact List.mergeSort_of_sorted (by decide)
  have hmem : (⟨"style", "style.md", "/p/style.md", "Use plain words.", 1,
      true, true⟩ : PromptComponent) ∈ surviving_components
      [⟨"core", "core.md", "/p/core.md", "Stay factual.", 0, false, true⟩,
        ⟨"style", "style.md", "/p/style.md", "Use plain words.", 1, true,
          true⟩] := by
    rw [surviving_components, hsorted]
    decide
  refine ⟨?_, ?_⟩
  · rw [heff]
    exact hmem
  · exact claim_C8_override_reset_roundtrip
      [⟨"core", "core.md", "/p/core.md", "Stay factual.", 0, true, true⟩,
        ⟨"style", "style.md", "/p/style.md", "Use plain words.", 1, true,
          true⟩] "core" |>.1 _ (by rw [heff]; exact hmem)

/-- C9 counterexample: the claim says every `compact_trigger_pct` in the
interval `(0, 1]` is accepted, but the pydantic validator requires
`ge = 0.1`: the value `0.05` lies in `(0, 1]` and is rejected (the update
returns no new state). -/
theorem claim_C9_counterexample :
    (0 < (1 : ℚ)/20 ∧ (1 : ℚ)/20 ≤ 1)
    ∧ update_context_settings_endpoint ⟨4096, 512, 9/10, ""⟩ 4096
        ⟨none, none, some ((1 : ℚ)/20), none⟩ = none := by
  constructor
  · constructor <;> norm_num
  · rw [update_context_settings_endpoint, if_neg]
    rw [validateContextSettingsUpdate]
    simp only [Bool.and_eq_true, decide_eq_true_eq]
    intro hcontra
    have := hcontra.2
    norm_num at this

/-- C9 amended: a context-settings update accepts every
`compact_trigger_pct` in `[0.1, 1]` (the validated bounds of the request
model) and rejects an out-of-range value with a validation error before the
handler runs, returning no new state, so the stored settings are unchanged
whenever the update is rejected. -/
theorem claim_C9_trigger_pct_validation (current : StoredContextSettings)
    (window : Nat) (p : ContextSettingsUpdateRequest) (x : ℚ) :
    ((1 : ℚ)/10 ≤ x → x ≤ 1 →
      update_context_settings_endpoint current window ⟨none, none, some x, none⟩
        = some { max_context_tokens := window
                 max_response_tokens := current.max_response_tokens
                 compact_trigger_pct := x
                 compact_instructions := current.compact_instructions })
    ∧ (p.compact_trigger_pct = some x → ¬((1 : ℚ)/10 ≤ x ∧ x ≤ 1) →
        update_context_settings_endpoint current window p = none) := by
  constructor
  · intro h1 h2
    rw [update_context_settings_endpoint, if_pos]
    · rfl
    · rw [validateContextSettingsUpdate]
      simp only [Bool.and_eq_true, decide_eq_true_eq]
      exact ⟨⟨trivial, trivial⟩, by constructor <;> linarith⟩
  · intro hp hx
    rw [update_context_settings_endpoint, if_neg]
    rw [validateContextSettingsUpdate, hp]
    simp only [Bool.and_eq_true, decide_eq_true_eq]
    intro hcontra
    exact hx hcontra.2

/-- Witness for the amended C9: the boundary value 0.1 is accepted. -/
theorem claim_C9_trigger_pct_validation_witness :
    ((1 : ℚ)/10 ≤ (1 : ℚ)/10 ∧ (1 : ℚ)/10 ≤ 1)
    ∧ update_context_settings_endpoint ⟨4096, 512, 9/10, "keep it short"⟩
        4096 ⟨none, none, some ((1 : ℚ)/10), none⟩
        = some ⟨4096, 512, 1/10, "keep it short"⟩ :=
  ⟨⟨le_refl _, by norm_num⟩,
    (claim_C9_trigger_pct_validation ⟨4096, 512, 9/10, "keep it short"⟩
      4096 ⟨none, none, some ((1 : ℚ)/10), none⟩ (1/10)).1
      (le_refl _) (by norm_num)⟩

/-- C10: a baseline job's completed-call counter starts at 0, every progress
callback sets it to `min(total_calls, completed + inc)` when the increment is
positive (and leaves it unchanged otherwise), so across any callback sequence
it is monotonically non-decreasing and stays between 0 and 34 inclusive,
even if callbacks over-report. -/
theorem claim_C10_progress_bounds (updates : List (String × Int)) :
    initialBaselineJob.completed_calls = 0
    ∧ initialBaselineJob.total_calls = 34
    ∧ (0 ≤ (updates.foldl
          (fun j u => baseline_progress j u.1 u.2) initialBaselineJob
          ).completed_calls
        ∧ (updates.foldl (fun j u => baseline_progress j u.1 u.2)
            initialBaselineJob).completed_calls ≤ 34
        ∧ (updates.foldl (fun j u => baseline_progress j u.1 u.2)
            initialBaselineJob).total_calls = 34)
    ∧ (∀ (j : BaselineJobState) (step : String) (inc : Int),
        0 ≤ j.completed_calls → j.completed_calls ≤ (j.total_calls : Int) →
          j.completed_calls ≤ (baseline_progress j step inc).completed_calls
          ∧ (baseline_progress j step inc).completed_calls
              ≤ (j.total_calls : Int)
          ∧ (baseline_progress j step inc).total_calls = j.total_calls) := by
  have hstep : ∀ (j : BaselineJobState) (step : String) (inc : Int),
      0 ≤ j.completed_calls → j.completed_calls ≤ (j.total_calls : Int) →
        j.completed_calls ≤ (baseline_progress j step inc).completed_calls
        ∧ (baseline_progress j step inc).completed_calls
            ≤ (j.total_calls : Int)
        ∧ (baseline_progress j step inc).total_calls = j.total_calls := by
    intro j step inc h0 hle
    rw [baseline_progress]
    split_ifs with hpos
    · rw [append_baseline_event]
      refine ⟨?_, ?_, ?_⟩
      · simp only []
        omega
      · simp only []
        omega
      · split <;> rfl
    · rw [append_baseline_event]
      exact ⟨le_refl _, hle, by split <;> rfl⟩
  refine ⟨rfl, rfl, ?_, hstep⟩
  have hinv : ∀ (l : List (String × Int)) (j : BaselineJobState),
      0 ≤ j.completed_calls → j.completed_calls ≤ (j.total_calls : Int) →
      j.total_calls = 34 →
        0 ≤ (l.foldl (fun j u => baseline_progress j u.1 u.2) j
            ).completed_calls
        ∧ (l.foldl (fun j u => baseline_progress j u.1 u.2) j
            ).completed_calls ≤ 34
        ∧ (l.foldl (fun j u => baseline_progress j u.1 u.2) j
            ).total_calls = 34 := by
    intro l
    induction l with
    | nil =>
      intro j h0 hle ht
      refine ⟨h0, ?_, ht⟩
      rw [ht] at hle
      exact_mod_cast hle
    | cons u rest ih =>
      intro j h0 hle ht
      rw [List.foldl_cons]
      have hs := hstep j u.1 u.2 h0 hle
      exact ih (baseline_progress j u.1 u.2) (le_trans h0 hs.1)
        (hs.2.1.trans_eq (by rw [hs.2.2])) (by rw [hs.2.2, ht])
  exact hinv updates initialBaselineJob (by decide) (by decide) rfl

/-- Witness for C10: one over-reporting callback clamps at the total. -/
theorem claim_C10_progress_bounds_witness :
    (0 ≤ (⟨34, 30, "s", []⟩ : BaselineJobState).completed_calls
      ∧ (⟨34, 30, "s", []⟩ : BaselineJobState).completed_calls
        ≤ ((⟨34, 30, "s", []⟩ : BaselineJobState).total_calls : Int))
    ∧ (baseline_progress ⟨34, 30, "s", []⟩ "next step" 10).completed_calls
        ≤ ((⟨34, 30, "s", []⟩ : BaselineJobState).total_calls : Int) :=
  ⟨⟨by norm_num, by norm_num⟩,
    ((claim_C10_progress_bounds []).2.2.2 ⟨34, 30, "s", []⟩ "next step" 10
      (by norm_num) (by norm_num)).2.1⟩


theorem multi_turn_step_latency_length (llm : LlmOracle) (label : String)
    (mt : Option Nat) (st : MultiTurnState) (turn : Nat × Nat) :
    (multi_turn_step llm label mt st turn).per_turn_latency_ms.length
      = st.per_turn_latency_ms.length + 1 := by
  rw [show (multi_turn_step llm label mt st turn).per_turn_latency_ms
      = st.per_turn_latency_ms
        ++ [(llm (st.messages ++ [⟨"user",
            build_user_payload turn.2
              (label ++ " turn " ++ toString (turn.1 + 1))⟩]) mt).2]
    from rfl]
  rw [List.length_append]
  rfl

theorem multi_turn_foldl_latency_length (llm : LlmOracle) (label : String)
    (mt : Option Nat) :
    ∀ (turns : List (Nat × Nat)) (st : MultiTurnState),
      ((turns.foldl (multi_turn_step llm label mt) st
          ).per_turn_latency_ms).length
        = st.per_turn_latency_ms.length + turns.length
  | [], st => by simp
  | t :: ts, st => by
      rw [List.foldl_cons,
        multi_turn_foldl_latency_length llm label mt ts
          (multi_turn_step llm label mt st t),
        multi_turn_step_latency_length]
      simp only [List.length_cons]
      omega

/-- The multi-turn case records one latency entry per configured turn. -/
theorem run_multi_turn_case_latency_length (llm : LlmOracle)
    (effective_prompt case_id label task_instruction : String)
    (turn_targets : List Nat) (mt : Option Nat) :
    ((run_multi_turn_case llm effective_prompt case_id label task_instruction
        turn_targets mt).per_turn_latency_ms.getD []).length
      = turn_targets.length := by
  show ((turn_targets.enum.foldl (multi_turn_step llm label mt)
      { messages :=
          [⟨"system", effective_prompt⟩, ⟨"system", task_instruction⟩]
        prompt_total := 0
        completion_total := 0
        token_total := 0
        latency_total := 0
        per_turn_latency_ms := []
        per_turn_prompt_tokens := []
        per_turn_completion_tokens := []
        input_total := 0 }).per_turn_latency_ms).length
    = turn_targets.length
  rw [multi_turn_foldl_latency_length]
  simp [List.enum_length]

/-- C6: every baseline run deterministically has `total_calls = 34`
regardless of the model oracle, produces exactly the five categories in the
fixed order with case counts 3, 4, 1, 1, 6, and its multi-turn case runs
exactly 20 sequential turns with target sizes `50 + (i * 17) % 151`,
yielding exactly 20 per-turn latency entries. -/
theorem claim_C6_baseline_shape (llm : LlmOracle)
    (effective_prompt model : String) (baseline_max_tokens : Option Nat) :
    baseline_total_calls = 34
    ∧ (execute_baseline llm effective_prompt model
        baseline_max_tokens).total_calls = 34
    ∧ (execute_baseline llm effective_prompt model
        baseline_max_tokens).categories.map (fun cat => cat.id)
      = ["simple_qa", "summarization", "multi_turn", "structured_extraction",
         "system_prompt_pressure"]
    ∧ (execute_baseline llm effective_prompt model
        baseline_max_tokens).categories.map (fun cat => cat.cases.length)
      = [3, 4, 1, 1, 6]
    ∧ (execute_baseline llm effective_prompt model
        baseline_max_tokens).categories.map
          (fun cat => cat.cases.map (fun c => c.calls))
      = [[1, 1, 1], [1, 1, 1, 1], [20], [1], [1, 1, 1, 1, 1, 1]]
    ∧ (execute_baseline llm effective_prompt model
        baseline_max_tokens).categories[2]?
      = some ⟨"multi_turn", "20-Turn Conversation",
          [run_multi_turn_case llm effective_prompt "mt_20x_50_200"
            "20-turn conversation (50-200 user tokens/turn)"
            "Maintain consistency across turns and preserve key decisions while answering each turn concisely."
            multi_turn_targets baseline_max_tokens]⟩
    ∧ ((run_multi_turn_case llm effective_prompt "mt_20x_50_200"
        "20-turn conversation (50-200 user tokens/turn)"
        "Maintain consistency across turns and preserve key decisions while answering each turn concisely."
        multi_turn_targets baseline_max_tokens).per_turn_latency_ms.getD
          []).length = 20
    ∧ multi_turn_targets = (List.range 20).map (fun i => 50 + (i * 17) % 151)
    ∧ multi_turn_targets.length = 20 := by
  refine ⟨rfl, rfl, rfl, rfl, rfl, rfl, ?_, rfl, rfl⟩
  rw [run_multi_turn_case_latency_length]
  rfl

end AIgentOS
